import Mathlib

/-!
Verification of the Big Mart Sales dashboard core (`src/app.py`):
the filter pipeline, the aggregation operations, fat-content
normalization, the store-age derivation, and the copy semantics of the
per-chart dataframe copies.  Rows are shallowly embedded as records over
`String`, `Int`, `ℚ` and `Option`; a dataframe is a `List Record`.
-/

namespace BigMart

/-- One row of the Big Mart dataset after the load-time column renaming in
`load_data` (`app.py` lines 21-36): the source columns `ProductID, Weight,
FatContent, ProductVisibility, ProductType, MRP, OutletID,
EstablishmentYear, OutletSize, LocationType, OutletType, OutletSales` are
renamed to the canonical names used below.  The nullable columns
(`Item_Weight`, `Outlet_Size`) are `Option`s; numeric columns are
rationals. -/
structure Record where
  Item_Identifier : String
  Item_Weight : Option ℚ
  Item_Fat_Content : String
  Item_Visibility : ℚ
  Item_Type : String
  Item_MRP : ℚ
  Outlet_Identifier : String
  Outlet_Establishment_Year : Int
  Outlet_Size : Option String
  Outlet_Location_Type : String
  Outlet_Type : String
  Item_Outlet_Sales : ℚ
  deriving DecidableEq, Repr

/-- The sidebar filter state (`app.py` lines 50-71): each of the three
selectboxes either holds the sentinel `'All'` (modelled as `none`) or a
selected category value `v` (modelled as `some v`). -/
structure FilterSelection where
  product_type : Option String
  city_tier : Option String
  store_category : Option String
  deriving DecidableEq, Repr

/-- The filter pipeline of `app.py` lines 74-85: starting from a copy of
the dataset, each selection that is not `'All'` keeps, in sequence, only
the rows whose column equals the selected value (`==` on the raw string). -/
def filtered_df (df : List Record) (sel : FilterSelection) : List Record :=
  let d1 := match sel.product_type with
    | none => df
    | some v => df.filter (fun r => r.Item_Type == v)
  let d2 := match sel.city_tier with
    | none => d1
    | some v => d1.filter (fun r => r.Outlet_Location_Type == v)
  let d3 := match sel.store_category with
    | none => d2
    | some v => d2.filter (fun r => r.Outlet_Type == v)
  d3

/-- An optional equality predicate: `none` is the `'All'` sentinel
(match every row), `some v` matches rows whose field equals `v`. -/
def matchesOpt (sel : Option String) (field : String) : Bool :=
  match sel with
  | none => true
  | some v => field == v

/-- The conjunction of the active equality predicates of a
`FilterSelection`: a row is kept iff every active predicate's value equals
the corresponding raw field of the row. -/
def matchesSelection (sel : FilterSelection) (r : Record) : Bool :=
  matchesOpt sel.product_type r.Item_Type
    && matchesOpt sel.city_tier r.Outlet_Location_Type
    && matchesOpt sel.store_category r.Outlet_Type

/-- A concrete sample row (one Big Mart observation), used by the
concrete witnesses and counterexamples below. -/
def sampleRow : Record where
  Item_Identifier := "FDA15"
  Item_Weight := some (93/10)
  Item_Fat_Content := "Low Fat"
  Item_Visibility := 16/1000
  Item_Type := "Dairy"
  Item_MRP := 2498/10
  Outlet_Identifier := "OUT049"
  Outlet_Establishment_Year := 1999
  Outlet_Size := some "Medium"
  Outlet_Location_Type := "Tier 1"
  Outlet_Type := "Supermarket Type1"
  Item_Outlet_Sales := 37358/10

/-- A small concrete dataset of three rows. -/
def sampleData : List Record :=
  [sampleRow,
   { sampleRow with
      Item_Type := "Snack Foods", Outlet_Location_Type := "Tier 2",
      Item_Outlet_Sales := 50 },
   { sampleRow with
      Item_Type := "Dairy", Outlet_Location_Type := "Tier 1",
      Item_Outlet_Sales := 200 }]

/-- A single active equality predicate, used to talk about applying the
three conditionals of `app.py` lines 76-83 in an arbitrary order. -/
inductive Pred where
  | productType (v : String)
  | cityTier (v : String)
  | storeCategory (v : String)
  deriving DecidableEq, Repr

/-- The row predicate tested by one active filter conditional. -/
def Pred.holds : Pred → Record → Bool
  | .productType v, r => r.Item_Type == v
  | .cityTier v, r => r.Outlet_Location_Type == v
  | .storeCategory v, r => r.Outlet_Type == v

/-- Apply one active filter conditional to the current dataframe. -/
def applyPred (df : List Record) (p : Pred) : List Record :=
  df.filter p.holds

/-- Apply a list of active filter conditionals left to right, as the
sequence of `filtered_df = filtered_df[...]` statements does. -/
def applyPreds (df : List Record) (ps : List Pred) : List Record :=
  ps.foldl applyPred df

/-- Two consecutive equality filters commute. -/
theorem applyPred_comm (df : List Record) (p q : Pred) :
    applyPred (applyPred df p) q = applyPred (applyPred df q) p := by
  simp only [applyPred, List.filter_filter]
  exact List.filter_congr (fun r _ => by rw [Bool.and_comm])

/-- C1: `filtered_df` returns exactly the rows satisfying the conjunction
of the active equality predicates (case-sensitive equality on the raw
category strings), as a new sequence preserving the original relative row
order — it is a sublist of the input; in particular an unmatched predicate
value yields an empty list, never an error. -/
theorem filtered_df_eq_filter_and_sublist (df : List Record)
    (sel : FilterSelection) :
    filtered_df df sel = df.filter (fun r => matchesSelection sel r)
      ∧ (filtered_df df sel).Sublist df := by
  have hmain :
      filtered_df df sel = df.filter (fun r => matchesSelection sel r) := by
    rcases sel with ⟨pt, ct, sc⟩
    rcases pt with _ | v₁ <;> rcases ct with _ | v₂ <;> rcases sc with _ | v₃ <;>
      simp [filtered_df, matchesSelection, matchesOpt, List.filter_filter] <;>
      exact (List.filter_congr (fun r _ => by
        simp only [Bool.and_comm, Bool.and_assoc, Bool.and_left_comm])).symm
  exact ⟨hmain, hmain ▸ List.filter_sublist df⟩

/-- C8: applying the filter with all three selections left at `'All'`
returns the whole dataset unchanged: same rows, same order. -/
theorem filtered_df_empty_selection (df : List Record) :
    filtered_df df ⟨none, none, none⟩ = df := rfl

/-- C2: applying the active filter conditionals in any order yields the
same filtered dataframe: permuted predicate lists give equal results. -/
theorem applyPreds_perm (df : List Record) (ps₁ ps₂ : List Pred)
    (h : ps₁.Perm ps₂) : applyPreds df ps₁ = applyPreds df ps₂ := by
  induction h generalizing df with
  | nil => rfl
  | cons x _ ih => simp only [applyPreds, List.foldl_cons] at *; exact ih _
  | swap x y l =>
      simp only [applyPreds, List.foldl_cons]
      rw [applyPred_comm]
  | trans _ _ ih₁ ih₂ => exact (ih₁ df).trans (ih₂ df)

/-! ### Aggregation engine (`app.py` lines 92-135, 169-171, 200, 241-248,
265, 282-284, 302, 322-326) -/

/-- Embeds `total_observations = len(data)` (`app.py` line 93). -/
def total_observations (data : List Record) : Nat := data.length

/-- Embeds `product_types_count = data['Item_Type'].nunique()` (line 96). -/
def product_types_count (data : List Record) : Nat :=
  (data.map (·.Item_Type)).dedup.length

/-- Embeds `highest_mrp = data['Item_MRP'].max()` behind the `len(data) > 0`
guard of line 100; the `"No data"` branch is modelled as `none`. -/
def highest_mrp (data : List Record) : Option ℚ :=
  (data.map (·.Item_MRP)).max?

/-- Embeds `min_year = data['Outlet_Establishment_Year'].min()` (line 104),
behind the same emptiness guard. -/
def min_year (data : List Record) : Option Int :=
  (data.map (·.Outlet_Establishment_Year)).min?

/-- Embeds `max_year = data['Outlet_Establishment_Year'].max()` (line 105). -/
def max_year (data : List Record) : Option Int :=
  (data.map (·.Outlet_Establishment_Year)).max?

/-- Embeds `total_store_sales = data['Item_Outlet_Sales'].sum()` (line 116);
the pandas sum of an empty column is `0`. -/
def total_store_sales (data : List Record) : ℚ :=
  (data.map (·.Item_Outlet_Sales)).sum

/-- Embeds `avg_store_sales = data['Item_Outlet_Sales'].mean()` (line 113),
behind the `len(data) > 0` guard: `none` models the `"No data"` branch. -/
def avg_store_sales (data : List Record) : Option ℚ :=
  if 0 < data.length then some (total_store_sales data / data.length)
  else none

/-- Embeds `avg_mrp = data['Item_MRP'].mean()` (line 124), behind the guard. -/
def avg_mrp (data : List Record) : Option ℚ :=
  if 0 < data.length then some ((data.map (·.Item_MRP)).sum / data.length)
  else none

/-- The two nullable columns inspected by the missing-values analysis
(`app.py` line 133). -/
inductive NullableColumn where
  | item_Weight
  | outlet_Size
  deriving DecidableEq, Repr

/-- Embeds `data[col].isnull()` for one row: whether the nullable column is
absent. -/
def isnullCol (c : NullableColumn) (r : Record) : Bool :=
  match c with
  | .item_Weight => r.Item_Weight.isNone
  | .outlet_Size => r.Outlet_Size.isNone

/-- Embeds `missing_count = data[col].isnull().sum()` (line 134). -/
def missing_count (data : List Record) (c : NullableColumn) : Nat :=
  data.countP (isnullCol c)

/-- Embeds `missing_percentage = (missing_count / len(data)) * 100 if
len(data) > 0 else 0` (line 135).  Note the source computes a
percentage (0-100), not a 0-1 fraction. -/
def missing_percentage (data : List Record) (c : NullableColumn) : ℚ :=
  if 0 < data.length then
    ((missing_count data c : ℚ) / (data.length : ℚ)) * 100
  else 0

/-- The distinct values of a (derived) column, one entry per group key of
a pandas `groupby`/`value_counts`. -/
def distinctKeys {κ : Type} [DecidableEq κ] (key : Record → κ)
    (data : List Record) : List κ :=
  (data.map key).dedup

/-- Embeds `data.groupby(key)[val].sum()`: one `(k, Σ val over the rows whose key
is k)` pair per distinct key value.  (Group-key iteration order is
irrelevant to every property proved below, so it is not modelled.) -/
def groupSum {κ : Type} [DecidableEq κ] (key : Record → κ)
    (val : Record → ℚ) (data : List Record) : List (κ × ℚ) :=
  (distinctKeys key data).map
    (fun k => (k, ((data.filter (fun r => decide (key r = k))).map val).sum))

/-- Embeds `data.groupby(key)[val].mean()`: one `(k, mean of val over the rows
whose key is k)` pair per distinct key value. -/
def groupMean {κ : Type} [DecidableEq κ] (key : Record → κ)
    (val : Record → ℚ) (data : List Record) : List (κ × ℚ) :=
  (distinctKeys key data).map
    (fun k =>
      (k, ((data.filter (fun r => decide (key r = k))).map val).sum
            / ((data.filter (fun r => decide (key r = k))).length : ℚ)))

/-- Embeds `data[col].value_counts()` on the column `data.map key`: one
`(k, number of rows whose key is k)` pair per distinct key value.  (The
count-descending presentation order of `value_counts` is irrelevant to
the properties below and is not modelled.) -/
def groupCount {κ : Type} [DecidableEq κ] (key : Record → κ)
    (data : List Record) : List (κ × Nat) :=
  ((data.map key).dedup).map (fun k => (k, (data.map key).count k))

/-- Embeds `avg_sales_by_type = data.groupby('Outlet_Type')['Item_Outlet_Sales'].mean()`
(line 200). -/
def avg_sales_by_type (data : List Record) : List (String × ℚ) :=
  groupMean (·.Outlet_Type) (·.Item_Outlet_Sales) data

/-- Embeds `tier_counts = data['Outlet_Location_Type'].value_counts()`
(line 184). -/
def tier_counts (data : List Record) : List (String × Nat) :=
  groupCount (·.Outlet_Location_Type) data

/-- Embeds `tier_sales = data.groupby('Outlet_Location_Type')['Item_Outlet_Sales'].sum()`
(line 265). -/
def tier_sales (data : List Record) : List (String × ℚ) :=
  groupSum (·.Outlet_Location_Type) (·.Item_Outlet_Sales) data

/-- The fat-content replacement dictionary of lines 242-246:
`{'LF': 'Low Fat', 'low fat': 'Low Fat', 'reg': 'Regular'}`; any value
not in the dictionary is passed through unchanged. -/
def normalizeFat (s : String) : String :=
  if s = "LF" then "Low Fat"
  else if s = "low fat" then "Low Fat"
  else if s = "reg" then "Regular"
  else s

/-- The column assignment
`fat_content_df['Item_Fat_Content'] = ...replace({...})` applied to one
row of the `fat_content_df` copy. -/
def normalizeFatRow (r : Record) : Record :=
  { r with Item_Fat_Content := normalizeFat r.Item_Fat_Content }

/-- Embeds `fat_sales = fat_content_df.groupby('Item_Fat_Content')['Item_Outlet_Sales'].sum()`
(line 248), computed on the normalized copy `fat_content_df`. -/
def fat_sales (data : List Record) : List (String × ℚ) :=
  groupSum (·.Item_Fat_Content) (·.Item_Outlet_Sales)
    (data.map normalizeFatRow)

/-- The column assignment
`df_size['Outlet_Size'] = df_size['Outlet_Size'].fillna('Unknown')`
(line 170) applied to one row of the `df_size` copy. -/
def fillSizeRow (r : Record) : Record :=
  { r with Outlet_Size := some (r.Outlet_Size.getD "Unknown") }

/-- Embeds `size_counts = df_size['Outlet_Size'].value_counts()` (line 171),
computed on the copy whose null sizes were replaced by `'Unknown'`. -/
def size_counts (data : List Record) : List (String × Nat) :=
  groupCount (fun r => r.Outlet_Size.getD "Unknown") (data.map fillSizeRow)

/-- Embeds `type_sales = data.groupby('Item_Type')['Item_Outlet_Sales'].sum()`
(line 302; line 282 computes the same grouping before sorting it). -/
def type_sales (data : List Record) : List (String × ℚ) :=
  groupSum (·.Item_Type) (·.Item_Outlet_Sales) data

/-- Embeds `type_sales_total = type_sales_total.sort_values('Item_Outlet_Sales',
ascending=False)` (lines 282-284): the product-type group sums sorted in
descending order of the aggregate sales value. -/
def type_sales_total (data : List Record) : List (String × ℚ) :=
  (type_sales data).mergeSort (fun a b => decide (b.2 ≤ a.2))

/-- Embeds `current_year = 2025` (line 322): the fixed reference-year constant
used for store age, not read from the wall clock. -/
def current_year : Int := 2025

/-- Embeds `store_age_df['Store_Age'] = current_year -
store_age_df['Outlet_Establishment_Year']` (line 324) for one row. -/
def store_Age (r : Record) : Int :=
  current_year - r.Outlet_Establishment_Year

/-- Embeds `age_sales = store_age_df.groupby('Store_Age')['Item_Outlet_Sales'].mean()`,
then `age_sales.sort_values('Store_Age')` (lines 325-326). -/
def age_sales (data : List Record) : List (Int × ℚ) :=
  (groupMean store_Age (·.Item_Outlet_Sales) data).mergeSort
    (fun a b => decide (a.1 ≤ b.1))

/-! ### Copy semantics of the per-chart dataframe copies

The chart blocks of `app.py` make a `.copy()` of the filtered dataframe
and assign a column on the copy (lines 169-170 and 241-246).  To state
that this leaves the filtered view untouched we interpret these
statements over an explicit store: variables name heap cells, cells hold
dataframes, `.copy()` allocates a fresh cell while plain assignment
aliases, and a column assignment mutates the target's cell in place. -/

/-- A dashboard-script statement over named dataframes: `copyAssign dst
src` is `dst = src.copy()`, `aliasAssign dst src` is plain `dst = src`,
and `mapRows tgt f` is an in-place column assignment `tgt[col] = ...`
applied row-wise to `tgt`'s storage. -/
inductive Stmt where
  | copyAssign (dst src : String)
  | aliasAssign (dst src : String)
  | mapRows (tgt : String) (f : Record → Record)

/-- The script state: variable bindings (latest first) and the heap. -/
structure Env where
  vars : List (String × Nat)
  heap : List (Nat × List Record)
  next : Nat

/-- The cell a variable is bound to, if any. -/
def lookupVar (env : Env) (x : String) : Option Nat :=
  (env.vars.find? (fun p => p.1 == x)).map (·.2)

/-- The dataframe a variable currently denotes, if any. -/
def readVar (env : Env) (x : String) : Option (List Record) :=
  match lookupVar env x with
  | none => none
  | some c => (env.heap.find? (fun p => p.1 == c)).map (·.2)

/-- One step of the script. -/
def execStmt (env : Env) : Stmt → Env
  | .copyAssign dst src =>
      match readVar env src with
      | none => env
      | some d =>
          { vars := (dst, env.next) :: env.vars,
            heap := (env.next, d) :: env.heap,
            next := env.next + 1 }
  | .aliasAssign dst src =>
      match lookupVar env src with
      | none => env
      | some c => { env with vars := (dst, c) :: env.vars }
  | .mapRows tgt f =>
      match lookupVar env tgt with
      | none => env
      | some c =>
          { env with
            heap := env.heap.map
              (fun p => if p.1 == c then (p.1, p.2.map f) else p) }

/-- Run a block of statements in order. -/
def execStmts (env : Env) (ss : List Stmt) : Env :=
  ss.foldl execStmt env

/-- The state at the top of the visualization section: the variable
`data` holds the filtered dataframe. -/
def initEnv (data : List Record) : Env :=
  { vars := [("data", 0)], heap := [(0, data)], next := 1 }

/-- Lines 241-246: `fat_content_df = data.copy()` followed by the
normalizing column assignment on the copy. -/
def fat_content_block : List Stmt :=
  [.copyAssign "fat_content_df" "data",
   .mapRows "fat_content_df" normalizeFatRow]

/-- Lines 169-170: `df_size = data.copy()` followed by the fillna column
assignment on the copy. -/
def df_size_block : List Stmt :=
  [.copyAssign "df_size" "data",
   .mapRows "df_size" fillSizeRow]

/-! ### Helper lemmas -/

/-- Summing the indicator of equality with `x` over a list counts `x`. -/
theorem sum_map_indicator {κ : Type} [DecidableEq κ] (l : List κ) (x : κ) :
    (l.map (fun k => if x = k then 1 else 0)).sum = l.count x := by
  induction l with
  | nil => rfl
  | cons y ys ih =>
    simp only [List.map_cons, List.sum_cons, List.count_cons, ih,
      beq_iff_eq]
    rcases eq_or_ne x y with h | h
    · subst h
      simp only [if_pos rfl]
      omega
    · simp only [if_neg h, if_neg (Ne.symm h)]
      omega

/-- Summing, over the distinct values of a list, the number of their
occurrences gives the length of the list. -/
theorem sum_map_count_dedup {κ : Type} [DecidableEq κ] (l : List κ) :
    (l.dedup.map (fun k => l.count k)).sum = l.length := by
  induction l with
  | nil => rfl
  | cons x xs ih =>
    have hsplit : ∀ m : List κ,
        (m.map (fun k => (x :: xs).count k)).sum
          = (m.map (fun k => xs.count k)).sum
              + (m.map (fun k => if x = k then 1 else 0)).sum := by
      intro m
      induction m with
      | nil => rfl
      | cons y ys ihm =>
        simp only [List.map_cons, List.sum_cons]
        rw [ihm, List.count_cons]
        simp only [beq_iff_eq]
        omega
    by_cases hx : x ∈ xs
    · rw [List.dedup_cons_of_mem hx, hsplit, sum_map_indicator,
        List.count_dedup]
      simp only [if_pos hx, ih, List.length_cons]
    · rw [List.dedup_cons_of_not_mem hx]
      simp only [List.map_cons, List.sum_cons]
      rw [hsplit, sum_map_indicator, List.count_dedup, List.count_cons]
      simp only [if_neg hx, beq_iff_eq, if_pos rfl, ih, List.length_cons,
        List.count_eq_zero_of_not_mem hx]
      simp
      omega

/-- Filling the null size on a row does not change what
`r.Outlet_Size.getD "Unknown"` reads off it. -/
theorem fillSizeRow_getD (r : Record) :
    (fillSizeRow r).Outlet_Size.getD "Unknown"
      = r.Outlet_Size.getD "Unknown" := by
  cases h : r.Outlet_Size <;> simp [fillSizeRow, h]

/-- Counting `'Unknown'` in the filled size column counts the null rows
plus the rows whose raw size is the literal `'Unknown'`. -/
theorem countP_unknown_split (l : List Record) :
    (l.map (fun r => r.Outlet_Size.getD "Unknown")).count "Unknown"
      = l.countP (fun r => r.Outlet_Size.isNone)
        + l.countP (fun r => decide (r.Outlet_Size = some "Unknown")) := by
  induction l with
  | nil => rfl
  | cons r l ih =>
    simp only [List.map_cons, List.count_cons, List.countP_cons, ih]
    rcases h : r.Outlet_Size with _ | s
    · simp [h]
      omega
    · by_cases hs : s = "Unknown"
      · subst hs
        simp [h]
        omega
      · simp [h, hs]

/-! ### Claim theorems -/

/-- Concrete instance for `applyPreds_perm`: swapping the product-type
and city-tier conditionals leaves the filtered rows unchanged. -/
theorem applyPreds_perm_witness :
    ([Pred.productType "Dairy", Pred.cityTier "Tier 1"]).Perm
        [Pred.cityTier "Tier 1", Pred.productType "Dairy"]
      ∧ applyPreds sampleData [Pred.productType "Dairy", Pred.cityTier "Tier 1"]
          = applyPreds sampleData
              [Pred.cityTier "Tier 1", Pred.productType "Dairy"] :=
  ⟨List.Perm.swap _ _ _,
    applyPreds_perm sampleData _ _ (List.Perm.swap _ _ _)⟩

/-- C3 counterexample: on a one-row view whose outlet size is null, the
missing-rate computation of line 135 returns 100 — a percentage, not a
number between 0 and 1. -/
theorem missing_percentage_exceeds_one :
    missing_percentage [{ sampleRow with Outlet_Size := none }]
        NullableColumn.outlet_Size = 100
      ∧ ¬ missing_percentage [{ sampleRow with Outlet_Size := none }]
            NullableColumn.outlet_Size ≤ 1 := by
  constructor
  · simp only [missing_percentage, missing_count, isnullCol,
      List.countP_cons, List.countP_nil, Option.isNone_none,
      List.length_cons, List.length_nil]
    norm_num
  · simp only [missing_percentage, missing_count, isnullCol,
      List.countP_cons, List.countP_nil, Option.isNone_none,
      List.length_cons, List.length_nil]
    norm_num

/-- C3 (amended): the missing-rate computation returns the percentage,
between 0 and 100, of rows in which the column is null/absent, and on an
empty view it returns 0 rather than dividing by zero. -/
theorem missing_percentage_percent_bounds (data : List Record)
    (c : NullableColumn) :
    0 ≤ missing_percentage data c ∧ missing_percentage data c ≤ 100
      ∧ missing_percentage [] c = 0 := by
  refine ⟨?_, ?_, rfl⟩
  · unfold missing_percentage
    split
    · positivity
    · exact le_refl 0
  · unfold missing_percentage
    split
    · rename_i h
      have hm : (missing_count data c : ℚ) ≤ (data.length : ℚ) :=
        Nat.cast_le.mpr (List.countP_le_length _)
      have hl : (0 : ℚ) < (data.length : ℚ) := by exact_mod_cast h
      have hdiv : (missing_count data c : ℚ) / (data.length : ℚ) ≤ 1 :=
        (div_le_one hl).2 hm
      have := mul_le_mul_of_nonneg_right hdiv
        (show (0 : ℚ) ≤ 100 by norm_num)
      simpa using this
    · norm_num

/-- C4: fat-content normalization maps `"LF"` and `"low fat"` to
`"Low Fat"` and `"reg"` to `"Regular"`, leaves every other value
unchanged, is idempotent, and is applied before the group-by on the
fat-content field: every group key of `fat_sales` is a fixed point of
the normalization. -/
theorem normalizeFat_spec :
    normalizeFat "LF" = "Low Fat" ∧ normalizeFat "low fat" = "Low Fat"
      ∧ normalizeFat "reg" = "Regular"
      ∧ (∀ s : String, s ≠ "LF" → s ≠ "low fat" → s ≠ "reg" →
          normalizeFat s = s)
      ∧ (∀ s : String, normalizeFat (normalizeFat s) = normalizeFat s)
      ∧ (∀ (data : List Record) (k : String),
          k ∈ (fat_sales data).map Prod.fst → normalizeFat k = k) := by
  have hpass : ∀ s : String, s ≠ "LF" → s ≠ "low fat" → s ≠ "reg" →
      normalizeFat s = s := by
    intro s h1 h2 h3
    unfold normalizeFat
    rw [if_neg h1, if_neg h2, if_neg h3]
  have hidem : ∀ s : String,
      normalizeFat (normalizeFat s) = normalizeFat s := by
    intro s
    by_cases h1 : s = "LF"
    · subst h1; decide
    · by_cases h2 : s = "low fat"
      · subst h2; decide
      · by_cases h3 : s = "reg"
        · subst h3; decide
        · rw [hpass s h1 h2 h3, hpass s h1 h2 h3]
  refine ⟨by decide, by decide, by decide, hpass, hidem, ?_⟩
  intro data k hk
  simp only [fat_sales, groupSum, distinctKeys, List.map_map,
    Function.comp_def, List.mem_map, List.mem_dedup, normalizeFatRow] at hk
  obtain ⟨x, hx, rfl⟩ := hk
  obtain ⟨r, -, rfl⟩ := hx
  exact hidem r.Item_Fat_Content

/-- Concrete instance for `normalizeFat_spec`: a value outside the
replacement dictionary passes through unchanged. -/
theorem normalizeFat_spec_witness :
    ("Seafood" ≠ "LF" ∧ "Seafood" ≠ "low fat" ∧ "Seafood" ≠ "reg")
      ∧ normalizeFat "Seafood" = "Seafood" :=
  ⟨⟨by decide, by decide, by decide⟩,
    normalizeFat_spec.2.2.2.1 "Seafood" (by decide) (by decide) (by decide)⟩

/-- C5: on the empty filtered view no aggregate fails: the row count and
the sales sum are 0, every group-by aggregate is the empty mapping, and
max/min/mean are the `none` sentinel whose emptiness the caller's
`len(data) > 0` guard checks first. -/
theorem empty_view_aggregates :
    total_observations [] = 0 ∧ total_store_sales [] = 0
      ∧ product_types_count [] = 0
      ∧ fat_sales [] = [] ∧ type_sales [] = [] ∧ type_sales_total [] = []
      ∧ tier_sales [] = [] ∧ tier_counts [] = [] ∧ size_counts [] = []
      ∧ avg_sales_by_type [] = [] ∧ age_sales [] = []
      ∧ highest_mrp [] = none ∧ min_year [] = none ∧ max_year [] = none
      ∧ avg_store_sales [] = none ∧ avg_mrp [] = none := by
  refine ⟨rfl, rfl, rfl, rfl, rfl, ?_, rfl, rfl, rfl, rfl, ?_,
    rfl, rfl, rfl, rfl, rfl⟩
  · simp [type_sales_total, type_sales, groupSum, distinctKeys]
  · simp [age_sales, groupMean, distinctKeys]

/-- C6: the derived store age is the fixed reference-year constant 2025
minus the row's establishment year (not wall-clock time); establishment
year 1999 yields store age 26; `age_sales` assigns every store-age value
the mean of the sales over the rows with that store age, and every row's
store age appears among its keys. -/
theorem store_age_spec :
    (∀ r : Record, store_Age r = 2025 - r.Outlet_Establishment_Year)
      ∧ (∀ r : Record, r.Outlet_Establishment_Year = 1999 →
          store_Age r = 26)
      ∧ (∀ (data : List Record) (a : Int) (m : ℚ),
          (a, m) ∈ age_sales data →
            m = ((data.filter (fun r => decide (store_Age r = a))).map
                    (fun r => r.Item_Outlet_Sales)).sum
                  / ((data.filter
                        (fun r => decide (store_Age r = a))).length : ℚ))
      ∧ (∀ (data : List Record), ∀ r ∈ data,
          store_Age r ∈ (age_sales data).map Prod.fst) := by
  refine ⟨fun r => rfl, ?_, ?_, ?_⟩
  · intro r h
    simp [store_Age, current_year, h]
  · intro data a m hm
    simp only [age_sales, List.mem_mergeSort, groupMean, distinctKeys,
      List.mem_map] at hm
    obtain ⟨k, hk, heq⟩ := hm
    injection heq with h1 h2
    subst h1
    subst h2
    rfl
  · intro data r hr
    have hk : store_Age r ∈ distinctKeys store_Age data :=
      List.mem_dedup.2 (List.mem_map_of_mem _ hr)
    refine List.mem_map.2 ⟨(store_Age r,
      ((data.filter (fun x => decide (store_Age x = store_Age r))).map
          (fun x => x.Item_Outlet_Sales)).sum
        / ((data.filter
              (fun x => decide (store_Age x = store_Age r))).length : ℚ)),
      ?_, rfl⟩
    simp only [age_sales, List.mem_mergeSort, groupMean]
    exact List.mem_map.2 ⟨store_Age r, hk, rfl⟩

/-- Concrete instance for `store_age_spec`: the sample row was
established in 1999, so its store age is 26. -/
theorem store_age_spec_witness :
    sampleRow.Outlet_Establishment_Year = 1999
      ∧ store_Age sampleRow = 26 :=
  ⟨rfl, store_age_spec.2.1 sampleRow rfl⟩

/-- C7: the total-sales-by-product-type result is sorted in descending
order of the aggregate sales value, and is a permutation of the
product-type group sums it sorts. -/
theorem type_sales_total_sorted_desc (data : List Record) :
    (type_sales_total data).Pairwise (fun a b => b.2 ≤ a.2)
      ∧ (type_sales_total data).Perm (type_sales data) := by
  constructor
  · have h : (List.mergeSort (type_sales data)
        (fun a b => decide (b.2 ≤ a.2))).Pairwise
        (fun a b : String × ℚ => decide (b.2 ≤ a.2) = true) :=
      List.sorted_mergeSort
        (fun a b c hab hbc => by
          simp only [decide_eq_true_eq] at *
          exact le_trans hbc hab)
        (fun a b => by
          simp only [Bool.or_eq_true, decide_eq_true_eq]
          exact le_total b.2 a.2)
        (type_sales data)
    exact h.imp (fun hx => of_decide_eq_true hx)
  · exact List.mergeSort_perm _ _

/-- C9: in the store-size distribution every row of the view is counted
under exactly one size category (the per-category counts sum to the
view's row count); the `'Unknown'` count is exactly the null-size rows
plus the rows whose raw size is the literal `'Unknown'`; and the fillna
runs on the `df_size` copy, so `data` — which the missing-values
analysis reads — is unchanged and still counts the same null rows as
missing. -/
theorem size_counts_spec (data : List Record) :
    ((size_counts data).map Prod.snd).sum = data.length
      ∧ (∀ n : Nat, ("Unknown", n) ∈ size_counts data →
          n = missing_count data NullableColumn.outlet_Size
                + data.countP
                    (fun r => decide (r.Outlet_Size = some "Unknown")))
      ∧ readVar (execStmts (initEnv data) df_size_block) "data" = some data
      ∧ (readVar (execStmts (initEnv data) df_size_block) "data").map
          (fun d => missing_count d NullableColumn.outlet_Size)
          = some (missing_count data NullableColumn.outlet_Size)
      ∧ readVar (execStmts (initEnv data) df_size_block) "df_size"
          = some (data.map fillSizeRow) := by
  have hcol : (data.map fillSizeRow).map
        (fun r => r.Outlet_Size.getD "Unknown")
      = data.map (fun r => r.Outlet_Size.getD "Unknown") := by
    rw [List.map_map]
    exact List.map_congr_left (fun r _ => fillSizeRow_getD r)
  refine ⟨?_, ?_, rfl, rfl, rfl⟩
  · simp only [size_counts, groupCount, List.map_map, Function.comp_def]
    rw [sum_map_count_dedup]
    simp [List.length_map]
  · intro n hn
    simp only [size_counts, groupCount, List.mem_map] at hn
    obtain ⟨k, hk, heq⟩ := hn
    injection heq with h1 h2
    subst h1
    subst h2
    rw [hcol]
    exact countP_unknown_split data

/-- Concrete instance for `size_counts_spec`: on a two-row view with one
null-size row, the `'Unknown'` slice of the distribution counts exactly
that one row, which the missing-values analysis also counts. -/
theorem size_counts_spec_witness :
    ("Unknown", 1) ∈
        size_counts [{ sampleRow with Outlet_Size := none }, sampleRow]
      ∧ (1 : Nat)
          = missing_count [{ sampleRow with Outlet_Size := none }, sampleRow]
              NullableColumn.outlet_Size
            + List.countP (fun r => decide (r.Outlet_Size = some "Unknown"))
                [{ sampleRow with Outlet_Size := none }, sampleRow] :=
  ⟨by decide,
    (size_counts_spec
        [{ sampleRow with Outlet_Size := none }, sampleRow]).2.1 1
      (by decide)⟩

/-- C10: the fat-content normalization runs on the `fat_content_df`
copy: after the block, `data` still holds the original rows with their
raw fat-content values, while the copy holds the normalized rows from
which the fat-content aggregate is computed; no field of the view is
changed. -/
theorem fat_content_copy_frame (data : List Record) :
    readVar (execStmts (initEnv data) fat_content_block) "data" = some data
      ∧ (readVar (execStmts (initEnv data) fat_content_block) "data").map
          (fun d => d.map (fun r => r.Item_Fat_Content))
          = some (data.map (fun r => r.Item_Fat_Content))
      ∧ readVar (execStmts (initEnv data) fat_content_block)
          "fat_content_df" = some (data.map normalizeFatRow)
      ∧ (readVar (execStmts (initEnv data) fat_content_block)
            "fat_content_df").map
          (fun d => groupSum (fun r => r.Item_Fat_Content)
            (fun r => r.Item_Outlet_Sales) d)
          = some (fat_sales data) :=
  ⟨rfl, rfl, rfl, rfl⟩

end BigMart
